import Mathlib

/-!
Shallow embedding of `src/app/src/components/Home/index.jsx`.

The file defines a small model of JavaScript values and React element
trees, then transliterates the three definitions of the source file:

* `mapStateToProps` — the state-mapping function (lines 19–21);
* `Home.render` — the render method of the `Home` view component
  (lines 8–17), which returns a `div` containing an `h2` heading with
  the text "Welcome." followed by a `RegistrationForm` child component
  receiving a single prop `accountRegister`;
* `HomeContainer` / `containerProps` — the props computed by
  `connect(mapStateToProps, accountActions)(Home)` (lines 23–26):
  react-redux merges own props, the state-derived props and the bound
  action creators, the latter taking precedence on key collisions.

JavaScript functions are modelled as opaque identifiers so that
reference identity is meaningful; an action creator additionally
carries an arity recording its call signature.  Property access on a
missing key yields `undefined`, as in JavaScript.
-/

/-- An externally supplied action creator: an opaque function identity
together with the arity of its call signature. -/
structure ActionCreator where
  id : Nat
  arity : Nat
deriving DecidableEq

/-- JavaScript values as they occur in this fragment: primitives, opaque
function references, dispatchers produced by binding an action creator
to the store, and objects as association lists. -/
inductive JSValue where
  | undefined : JSValue
  | null : JSValue
  | boolean (b : Bool) : JSValue
  | number (n : Int) : JSValue
  | string (s : String) : JSValue
  | func (id : Nat) : JSValue
  | dispatcher (creator : ActionCreator) : JSValue
  | obj (fields : List (String × JSValue)) : JSValue

/-- A props object: an association list from prop names to values. -/
abbrev Props := List (String × JSValue)

/-- JavaScript property access: a missing key reads as `undefined`. -/
def getProp (props : Props) (key : String) : JSValue :=
  match props.lookup key with
  | some v => v
  | none => JSValue.undefined

mutual
/-- A React element tree: text nodes, child components (rendered
opaquely, identified by name and the props they receive), and host
elements with a tag, props and children. -/
inductive ReactElement where
  | text (s : String) : ReactElement
  | component (name : String) (props : Props) : ReactElement
  | elem (tag : String) (props : Props) (children : ElementList) : ReactElement
/-- A list of sibling React elements (kept as a mutual inductive so
that structural recursion over trees is available). -/
inductive ElementList where
  | nil : ElementList
  | cons (head : ReactElement) (tail : ElementList) : ElementList
end

/-- Convert a sibling list to an ordinary list. -/
def ElementList.toList : ElementList → List ReactElement
  | .nil => []
  | .cons h t => h :: t.toList

/-- The direct children of an element (text and component nodes have
none). -/
def ReactElement.childList : ReactElement → List ReactElement
  | .elem _ _ cs => cs.toList
  | _ => []

/-- Whether a tag is an HTML heading tag. -/
def isHeadingTag (t : String) : Bool :=
  t = "h1" || t = "h2" || t = "h3" || t = "h4" || t = "h5" || t = "h6"

mutual
/-- Number of heading elements in a tree. -/
def countHeading : ReactElement → Nat
  | .text _ => 0
  | .component _ _ => 0
  | .elem t _ cs => (if isHeadingTag t then 1 else 0) + countHeadingL cs
/-- Number of heading elements in a sibling list. -/
def countHeadingL : ElementList → Nat
  | .nil => 0
  | .cons h t => countHeading h + countHeadingL t
end

mutual
/-- Number of child-component nodes in a tree. -/
def countComponent : ReactElement → Nat
  | .text _ => 0
  | .component _ _ => 1
  | .elem _ _ cs => countComponentL cs
/-- Number of child-component nodes in a sibling list. -/
def countComponentL : ElementList → Nat
  | .nil => 0
  | .cons h t => countComponent h + countComponentL t
end

mutual
/-- The props received by the first component of the given name in the
tree, if any. -/
def findComponent (name : String) : ReactElement → Option Props
  | .text _ => none
  | .component n ps => if n = name then some ps else none
  | .elem _ _ cs => findComponentL name cs
/-- The props received by the first component of the given name in a
sibling list, if any. -/
def findComponentL (name : String) : ElementList → Option Props
  | .nil => none
  | .cons h t =>
    match findComponent name h with
    | some ps => some ps
    | none => findComponentL name t
end

/-- The `render` method of the `Home` view component (source lines 8–17):
a `div` containing the heading `<h2>Welcome.</h2>` followed by
`<RegistrationForm accountRegister={this.props.accountRegister} />`. -/
def Home.render (props : Props) : ReactElement :=
  ReactElement.elem "div" []
    (ElementList.cons (ReactElement.elem "h2" []
        (ElementList.cons (ReactElement.text "Welcome.") ElementList.nil))
    (ElementList.cons (ReactElement.component "RegistrationForm"
        [("accountRegister", getProp props "accountRegister")])
      ElementList.nil))

/-- The state-mapping function of the source (lines 19–21): it returns
the empty object for every state. -/
def mapStateToProps (_state : JSValue) : Props :=
  []

/-- Binding of an action-creator object by `connect`: each creator is
wrapped into a dispatcher under its own name, with its identity and
arity unchanged. -/
def bindActionCreators (acs : List (String × ActionCreator)) : Props :=
  acs.map (fun a => (a.1, JSValue.dispatcher a.2))

/-- The props that the connected container computes for the view on
each store notification: own props, state-derived props and dispatch
props merged, with later spreads taking precedence — under first-match
`lookup` semantics the dispatch props therefore come first. -/
def containerProps (state : JSValue) (acs : List (String × ActionCreator))
    (ownProps : Props) : Props :=
  bindActionCreators acs ++ mapStateToProps state ++ ownProps

/-- The rendering of `HomeContainer = connect(mapStateToProps,
accountActions)(Home)` at a given store state: the view rendered with
the computed props. -/
def HomeContainer.render (state : JSValue) (acs : List (String × ActionCreator))
    (ownProps : Props) : ReactElement :=
  Home.render (containerProps state acs ownProps)

theorem lookup_bindActionCreators (acs : List (String × ActionCreator)) (name : String) :
    (bindActionCreators acs).lookup name = (acs.lookup name).map JSValue.dispatcher := by
  induction acs with
  | nil => rfl
  | cons a t ih =>
    cases h : name == a.1
    case false => simpa [bindActionCreators, List.lookup, h] using ih
    case true => simp [bindActionCreators, List.lookup, h]

theorem lookup_append_left {α β : Type} [BEq α] (l1 l2 : List (α × β)) (k : α) (v : β)
    (h : l1.lookup k = some v) : (l1 ++ l2).lookup k = some v := by
  induction l1 with
  | nil => simp [List.lookup] at h
  | cons a t ih =>
    cases hk : k == a.1 <;> simp_all [List.lookup]

/-- C1: `mapStateToProps` returns the empty mapping for every input
state, so any two states are mapped to equal empty objects. -/
theorem mapStateToProps_constant_empty :
    (∀ s : JSValue, mapStateToProps s = []) ∧
    (∀ s1 s2 : JSValue, mapStateToProps s1 = mapStateToProps s2) :=
  ⟨fun _ => rfl, fun _ _ => rfl⟩

/-- C2: when the props carry a callback function under `accountRegister`,
the rendered `RegistrationForm` receives that exact same function
reference as its `accountRegister` prop. -/
theorem home_render_forwards_accountRegister (props : Props) (fid : Nat)
    (h : props.lookup "accountRegister" = some (JSValue.func fid)) :
    findComponent "RegistrationForm" (Home.render props)
      = some [("accountRegister", JSValue.func fid)] := by
  simp [Home.render, findComponent, findComponentL, getProp, h]

theorem home_render_forwards_accountRegister_witness :
    findComponent "RegistrationForm"
        (Home.render [("accountRegister", JSValue.func 0)])
      = some [("accountRegister", JSValue.func 0)] :=
  home_render_forwards_accountRegister [("accountRegister", JSValue.func 0)] 0 rfl

/-- C3: for every props object the rendered tree contains exactly one
heading element and exactly one child-component node, both nested
inside a single enclosing element. -/
theorem home_render_one_heading_one_form (props : Props) :
    countHeading (Home.render props) = 1 ∧
    countComponent (Home.render props) = 1 ∧
    ∃ cs : ElementList, Home.render props = ReactElement.elem "div" [] cs := by
  refine ⟨?_, ?_, ⟨_, rfl⟩⟩ <;>
    simp [Home.render, countHeading, countHeadingL, countComponent, countComponentL,
      isHeadingTag]

/-- C4: rendering with `accountRegister` absent from the props still
returns the well-formed tree, with `undefined` forwarded to the form's
`accountRegister` prop. -/
theorem home_render_absent_accountRegister (props : Props)
    (h : props.lookup "accountRegister" = none) :
    findComponent "RegistrationForm" (Home.render props)
      = some [("accountRegister", JSValue.undefined)] ∧
    ∃ cs : ElementList, Home.render props = ReactElement.elem "div" [] cs := by
  refine ⟨?_, ⟨_, rfl⟩⟩
  simp [Home.render, findComponent, findComponentL, getProp, h]

theorem home_render_absent_accountRegister_witness :
    findComponent "RegistrationForm" (Home.render [])
        = some [("accountRegister", JSValue.undefined)] ∧
    ∃ cs : ElementList, Home.render [] = ReactElement.elem "div" [] cs :=
  home_render_absent_accountRegister [] rfl

/-- C5: across any two store change notifications the state-derived
portion of the computed props is the same constant empty mapping and
the full computed props (action creators included) are unchanged. -/
theorem containerProps_constant_across_notifications
    (s1 s2 : JSValue) (acs : List (String × ActionCreator)) (own : Props) :
    mapStateToProps s1 = [] ∧
    mapStateToProps s1 = mapStateToProps s2 ∧
    containerProps s1 acs own = containerProps s2 acs own :=
  ⟨rfl, rfl, rfl⟩

/-- C6: every supplied action creator is merged into the view's props
under its own unmodified name, as a dispatcher wrapping exactly that
creator (same identity and arity); in particular `accountRegister`
appears under the name `accountRegister`. -/
theorem containerProps_binds_action_creators
    (s : JSValue) (acs : List (String × ActionCreator)) (own : Props)
    (name : String) (c : ActionCreator)
    (h : acs.lookup name = some c) :
    (containerProps s acs own).lookup name = some (JSValue.dispatcher c) := by
  have hb : (bindActionCreators acs).lookup name = some (JSValue.dispatcher c) := by
    rw [lookup_bindActionCreators, h]; rfl
  simpa [containerProps, mapStateToProps] using
    lookup_append_left (bindActionCreators acs) own name (JSValue.dispatcher c) hb

theorem containerProps_binds_action_creators_witness :
    (containerProps JSValue.undefined [("accountRegister", ⟨0, 1⟩)] []).lookup
        "accountRegister" = some (JSValue.dispatcher ⟨0, 1⟩) :=
  containerProps_binds_action_creators JSValue.undefined
    [("accountRegister", ⟨0, 1⟩)] [] "accountRegister" ⟨0, 1⟩ rfl

/-- C7: the form component receives exactly one prop from the view,
named `accountRegister`. -/
theorem home_render_form_receives_only_accountRegister (props : Props) :
    ∃ v : JSValue, findComponent "RegistrationForm" (Home.render props)
      = some [("accountRegister", v)] :=
  ⟨getProp props "accountRegister", by
    simp [Home.render, findComponent, findComponentL]⟩

/-- C8: the render of the view is a pure deterministic function of its
props (it takes no other input in this embedding): equal props give
equal trees. -/
theorem home_render_deterministic (p q : Props) (h : p = q) :
    Home.render p = Home.render q := by
  rw [h]

theorem home_render_deterministic_witness :
    Home.render [] = Home.render [] :=
  home_render_deterministic [] [] rfl

/-- C9: for every props object the heading child carries the exact
static text "Welcome." and precedes the form component in the child
order of the enclosing element. -/
theorem home_render_heading_text_and_order (props : Props) :
    (Home.render props).childList
      = [ReactElement.elem "h2" []
           (ElementList.cons (ReactElement.text "Welcome.") ElementList.nil),
         ReactElement.component "RegistrationForm"
           [("accountRegister", getProp props "accountRegister")]] :=
  rfl

/-- C10: the rendered tree depends only on the `accountRegister` prop:
two props objects agreeing on it render to equal trees, whatever their
other fields. -/
theorem home_render_depends_only_on_accountRegister (p1 p2 : Props)
    (h : p1.lookup "accountRegister" = p2.lookup "accountRegister") :
    Home.render p1 = Home.render p2 := by
  unfold Home.render getProp
  rw [h]

theorem home_render_depends_only_on_accountRegister_witness :
    Home.render [("other", JSValue.null)] = Home.render [] :=
  home_render_depends_only_on_accountRegister [("other", JSValue.null)] [] rfl
